import Mathlib

/-!
Shallow embedding of the client script of the Bwise repository
(`src/script.js`, `src/assets/script.js`, `src/unnamed/part_000`,
`src/unnamed/part_001`) and proofs about the view/filter data binder, the
fixture loader, the cosmetic rotators, the catalog filter and the masked
value toggle.

DOM state is embedded as plain records: a text node is its id and its
current `textContent`, a selector button is its `data-*` attribute together
with its `active` class and `aria-pressed` attribute, a card is its tag
attribute together with its `style.display` value.  Timer driven updates
(the fade delay of a metric value, interval ticks) are modelled by their
settled effect: the state a theorem speaks about is the state after all
pending timeouts of the operation have fired.  `console` output of an
operation is returned alongside the new state as a list of log lines.
-/

-- ===========================================================================
-- String utilities mirroring the JavaScript string operations used by the
-- script.
-- ===========================================================================

/-- Console log severities used by the script (`console.error`,
`console.warn`, `console.info`). -/
inductive LogLevel where
  | error
  | warn
  | info
deriving DecidableEq, Repr

/-- One console line: a severity and the printed message. -/
abbrev LogLine := LogLevel × String

/-- MetricRecord: a display value and a one line explanatory caption,
mirroring the `{ value, change }` objects of the script. -/
structure MetricRecord where
  value : String
  change : String
deriving DecidableEq, Repr

/-- A dataset for one selectable view: insertion ordered mapping from a
metric key to its record, as a JavaScript object literal is. -/
abbrev ViewDataset := List (String × MetricRecord)

/-- Mapping from a view key to its dataset. -/
abbrev DashboardData := List (String × ViewDataset)

/-- Character level model of `String.prototype.toUpperCase` on one char. -/
def upChar (c : Char) : Char := c.toUpper

/-- Character level model of `String.prototype.toLowerCase` on one char. -/
def lowChar (c : Char) : Char := c.toLower

/-- Model of `s.toLowerCase()` (ASCII range, which covers every string the
script manipulates). -/
def lowerStr (s : String) : String := ⟨s.data.map lowChar⟩

/-- Whitespace recognised by `String.prototype.trim` (ASCII part). -/
def isWs (c : Char) : Bool := c = ' ' || c = '\t' || c = '\n' || c = '\r'

/-- Model of `s.trim()`: strip leading and trailing whitespace. -/
def trimStr (s : String) : String :=
  ⟨((s.data.dropWhile isWs).reverse.dropWhile isWs).reverse⟩

/-- Model of `haystack.startsWith(needle)` at the character list level. -/
def startsWithChars : List Char → List Char → Bool
  | _, [] => true
  | [], _ :: _ => false
  | c :: cs, d :: ds => c = d && startsWithChars cs ds

/-- Model of `haystack.includes(needle)` at the character list level:
true when `needle` occurs contiguously in `haystack` (an empty needle
always occurs, as in JavaScript). -/
def containsChars : List Char → List Char → Bool
  | [], n => n.isEmpty
  | h :: hs, n => startsWithChars (h :: hs) n || containsChars hs n

/-- Model of `haystack.includes(needle)` on strings. -/
def containsStr (h n : String) : Bool := containsChars h.data n.data

/-- Helper for the model of `s.split(',')`; the accumulator holds the
current field reversed. -/
def splitCommaAux : List Char → List Char → List String
  | acc, [] => [⟨acc.reverse⟩]
  | acc, c :: cs =>
      if c = ',' then ⟨acc.reverse⟩ :: splitCommaAux [] cs
      else splitCommaAux (c :: acc) cs

/-- Model of `s.split(',')`: an empty string yields one empty field, as in
JavaScript. -/
def splitComma (s : String) : List String := splitCommaAux [] s.data

/-- Model of `list.join('\n')`. -/
def joinNl : List String → String
  | [] => ""
  | [s] => s
  | s :: rest => s ++ "\n" ++ joinNl rest

/-- Model of `list.join(' ')`. -/
def joinSp : List String → String
  | [] => ""
  | [s] => s
  | s :: rest => s ++ " " ++ joinSp rest

/-- Model of `list.join('')`. -/
def joinEmpty : List String → String
  | [] => ""
  | s :: rest => s ++ joinEmpty rest

-- ===========================================================================
-- Dashboard data binder (`DashboardManager` of src/script.js with its hard
-- coded dataset, and `DashboardSection` of src/assets/script.js over a
-- dataset loaded from a fixture).
-- ===========================================================================

/-- The `monthly` dataset hard coded in `DashboardManager` (src/script.js). -/
def monthlyData : ViewDataset :=
  [("totalReports", ⟨"2,847", "Up 12 percent from last period"⟩),
   ("timeSaved", ⟨"1,240", "About 60 percent efficiency gain"⟩),
   ("complianceScore", ⟨"98.4", "Stable and in target range"⟩),
   ("userSatisfaction", ⟨"4.8", "High adoption and positive feedback"⟩)]

/-- The `quarterly` dataset hard coded in `DashboardManager`. -/
def quarterlyData : ViewDataset :=
  [("totalReports", ⟨"8,310", "Up 18 percent vs prior quarter"⟩),
   ("timeSaved", ⟨"3,720", "Manual work down about 64 percent"⟩),
   ("complianceScore", ⟨"98.7", "Slight improvement after new checks"⟩),
   ("userSatisfaction", ⟨"4.7", "Consistent positive feedback"⟩)]

/-- The `yearly` dataset hard coded in `DashboardManager`. -/
def yearlyData : ViewDataset :=
  [("totalReports", ⟨"32,400", "Up 26 percent year over year"⟩),
   ("timeSaved", ⟨"14,800", "Full year impact across all units"⟩),
   ("complianceScore", ⟨"98.9", "Sustained performance at target"⟩),
   ("userSatisfaction", ⟨"4.8", "Strong sentiment at scale"⟩)]

/-- The inline `this.data` object of `DashboardManager` in src/script.js
(also the `dashboardData` object of src/unnamed/part_000). -/
def dashboardData : DashboardData :=
  [("monthly", monthlyData), ("quarterly", quarterlyData), ("yearly", yearlyData)]

/-- A DOM text node reachable by `document.getElementById`: its id and its
current text content. -/
structure TextNode where
  id : String
  text : String
deriving DecidableEq, Repr

/-- A `.demo-btn` view selector button: its `data-view` attribute, its
`active` class and its `aria-pressed` attribute. -/
structure ViewButton where
  dataView : String
  active : Bool
  ariaPressed : String
deriving DecidableEq, Repr

/-- The DOM state a `DashboardManager` instance manipulates, plus the last
screen reader announcement issued through `announceToScreenReader`. -/
structure DashState where
  currentView : String
  nodes : List TextNode
  buttons : List ViewButton
  lastAnnouncement : Option String
deriving DecidableEq, Repr

/-- Model of `element.textContent = text` on the node returned by
`document.getElementById(id)`: the first node with that id gets the new
text; when no node has the id nothing happens (the script guards with
`if (valueElement)` / `if (changeElement)`). -/
def setTextById : List TextNode → String → String → List TextNode
  | [], _, _ => []
  | n :: rest, id, text =>
      if n.id = id then { n with text := text } :: rest
      else n :: setTextById rest id text

/-- The text of `document.getElementById(id)`: text of the first node with
the given id, `none` when absent. -/
def textOfId (ns : List TextNode) (id : String) : Option String :=
  (ns.find? (fun n => n.id == id)).map (·.text)

/-- Model of `DashboardManager.updateMetrics`: for every entry of the
selected view's dataset, the node with the key as id receives the value
(after the fade delay; we model the settled state) and the node with id
`key + "Change"` receives the caption synchronously. -/
def updateMetrics (ns : List TextNode) (ds : ViewDataset) : List TextNode :=
  ds.foldl
    (fun acc kv =>
      setTextById (setTextById acc kv.1 kv.2.value) (kv.1 ++ "Change") kv.2.change)
    ns

/-- Model of `updateButtons`: every view button gets `active` exactly when
its `data-view` equals the newly selected view, and `aria-pressed` is the
string form of that flag. -/
def updateViewButtons (bs : List ViewButton) (view : String) : List ViewButton :=
  bs.map fun b =>
    { b with
      active := b.dataView == view
      ariaPressed := if b.dataView == view then "true" else "false" }

/-- Model of `view.charAt(0).toUpperCase() + view.slice(1)` used by
`DashboardManager.setView` in src/script.js. -/
def capFirst (s : String) : String :=
  match s.data with
  | [] => ""
  | c :: cs => ⟨upChar c :: cs⟩

/-- Model of the global replace of hyphens by spaces in
`DashboardSection.setView`: the pattern is a single character, so the
global replace is a character map. -/
def replaceHyphens (s : String) : String :=
  ⟨s.data.map (fun c => if c = '-' then ' ' else c)⟩

/-- JavaScript word characters (ASCII letters, digits, underscore). -/
def isWordChar (c : Char) : Bool := c.isAlphanum || c = '_'

/-- Model of the word capitalizing global replace of
`DashboardSection.setView`: upper case every word character that is not
preceded by a word character (a word boundary).  The boolean argument
records whether the previous character was a word character. -/
def capWordsAux : Bool → List Char → List Char
  | _, [] => []
  | prevWord, c :: cs =>
      (if isWordChar c && !prevWord then upChar c else c) :: capWordsAux (isWordChar c) cs

/-- Model of the word capitalizing replace on a string. -/
def capWords (s : String) : String := ⟨capWordsAux false s.data⟩

/-- Human readable view name built by `DashboardSection.setView` in
src/assets/script.js: hyphens become spaces, then every word is
capitalized.  This is exactly the rendering the spec describes for the
screen reader announcement. -/
def humanizeView (view : String) : String := capWords (replaceHyphens view)

/-- Model of `DashboardManager.setView` (src/script.js).  An absent view is
rejected: `console.error` fires and nothing changes.  A present view
updates the metric nodes, the buttons, and issues the screen reader
announcement built with `capFirst`. -/
def DashboardManager.setView (st : DashState) (view : String) :
    DashState × List LogLine :=
  match List.lookup view dashboardData with
  | none => (st, [(LogLevel.error, "Invalid view: " ++ view)])
  | some ds =>
      ({ currentView := view
         nodes := updateMetrics st.nodes ds
         buttons := updateViewButtons st.buttons view
         lastAnnouncement := some (capFirst view ++ " view selected") }, [])

/-- A `[data-metric-key]` node of a dashboard section with its
`.metric-value` and `.metric-change` children. -/
structure SectionMetricNode where
  metricKey : String
  valueText : String
  changeText : String
deriving DecidableEq, Repr

/-- DOM state of one `DashboardSection` (src/assets/script.js): keyed
metric nodes, a fallback list of id addressed nodes, the view buttons, and
the last announcement. -/
structure SectionState where
  currentView : String
  metricNodes : List SectionMetricNode
  idNodes : List TextNode
  buttons : List ViewButton
  lastAnnouncement : Option String
deriving DecidableEq, Repr

/-- Model of `DashboardSection.updateMetrics`: when `[data-metric-key]`
nodes exist they are updated from the dataset (nodes whose key has no
entry are left alone); otherwise the id based fallback path of
`DashboardManager` runs. -/
def sectionUpdateMetrics (st : SectionState) (ds : ViewDataset) : SectionState :=
  if st.metricNodes.isEmpty then
    { st with idNodes := updateMetrics st.idNodes ds }
  else
    { st with
      metricNodes := st.metricNodes.map fun n =>
        match List.lookup n.metricKey ds with
        | none => n
        | some v => { n with valueText := v.value, changeText := v.change } }

/-- Model of `DashboardSection.setView` (src/assets/script.js) over the
dataset the section was constructed with. -/
def DashboardSection.setView (dataSet : DashboardData) (st : SectionState)
    (view : String) : SectionState × List LogLine :=
  match List.lookup view dataSet with
  | none => (st, [(LogLevel.error, "Invalid view: " ++ view)])
  | some ds =>
      let st1 := sectionUpdateMetrics { st with currentView := view } ds
      ({ st1 with
         buttons := updateViewButtons st1.buttons view
         lastAnnouncement := some (humanizeView view ++ " view selected") }, [])

/-- Keys of a view dataset, in insertion order. -/
def dsKeys (ds : ViewDataset) : List String := ds.map Prod.fst

/-- No key of the dataset equals another key with `"Change"` appended: this
keeps the caption node ids disjoint from the value node ids. -/
def ChangeFree (ds : ViewDataset) : Prop :=
  ∀ k1 ∈ dsKeys ds, ∀ k2 ∈ dsKeys ds, k1 ≠ k2 ++ "Change"

instance : DecidablePred ChangeFree := fun ds => by
  unfold ChangeFree; infer_instance

-- ===========================================================================
-- Backend showcase (`BackendShowcase` of src/script.js with its inline
-- datasets) and platform lab (`PlatformLab` of src/assets/script.js over
-- fixture loaded datasets).
-- ===========================================================================

/-- The inline `this.kpiValues` object of `BackendShowcase` in
src/script.js. -/
def showcaseKpiValues : List (String × List (String × MetricRecord)) :=
  [("all",
     [("services", ⟨"12", "Versioned APIs, jobs, and reporting endpoints"⟩),
      ("coverage", ⟨"92%", "Unit + integration suites with quality gates"⟩),
      ("latency", ⟨"180ms", "Optimized queries + caching strategy"⟩),
      ("compliance", ⟨"99%", "Secure logging, masking, and evidence trails"⟩)]),
   ("backend",
     [("services", ⟨"6", "CRUD APIs, auth middleware, and background jobs"⟩),
      ("coverage", ⟨"94%", "Controller + service layer test coverage"⟩),
      ("latency", ⟨"140ms", "API optimized with async I/O + caching"⟩),
      ("compliance", ⟨"97%", "Threat modeling and endpoint hardening"⟩)]),
   ("data",
     [("services", ⟨"4", "Reporting views and data validation jobs"⟩),
      ("coverage", ⟨"90%", "SQL unit tests + migration verification"⟩),
      ("latency", ⟨"220ms", "Index tuning on high volume reports"⟩),
      ("compliance", ⟨"98%", "Data lineage and masking controls"⟩)]),
   ("enterprise",
     [("services", ⟨"5", "Admin portal, RBAC, and form builder"⟩),
      ("coverage", ⟨"93%", "Role/permission logic fully tested"⟩),
      ("latency", ⟨"160ms", "UI actions backed by cached policies"⟩),
      ("compliance", ⟨"99%", "Audit log coverage for all admin actions"⟩)]),
   ("devops",
     [("services", ⟨"8", "CI pipelines, checks, and deployments"⟩),
      ("coverage", ⟨"95%", "Coverage gates enforced in CI"⟩),
      ("latency", ⟨"170ms", "Performance baselines tracked per release"⟩),
      ("compliance", ⟨"98%", "Release evidence and change logs"⟩)]),
   ("security",
     [("services", ⟨"7", "Authorization and security services"⟩),
      ("coverage", ⟨"91%", "Auth, validation, and logging tests"⟩),
      ("latency", ⟨"150ms", "Security middleware optimized"⟩),
      ("compliance", ⟨"99%", "Audit readiness controls always on"⟩)])]

/-- The inline `this.summaryText` object of `BackendShowcase` in
src/script.js. -/
def showcaseSummaryText : List (String × String) :=
  [("all", "Multi-system view: backend APIs, analytics pipelines, admin tooling, and compliance controls aligned to internal SLAs and regulatory audit expectations."),
   ("backend", "Backend view: CRUD APIs, versioned endpoints, background jobs, retry logic, and structured logging for operational visibility."),
   ("data", "Data view: normalized SQL schemas, migration scripts, indexed tables, and KPI-ready reporting layers."),
   ("enterprise", "Enterprise view: admin portals with RBAC, feature flags, dynamic form builders, and audit trails."),
   ("devops", "DevOps view: CI/CD, test coverage gates, deployment readiness, and branching discipline."),
   ("security", "Security view: input validation, authorization checks, secure logging, and data masking.")]

/-- A `[data-showcase-filter]` button. -/
structure FilterButton where
  showcaseFilter : String
  active : Bool
  ariaPressed : String
deriving DecidableEq, Repr

/-- A `[data-showcase-tag]` card: its raw comma separated tag attribute and
its `style.display` value. -/
structure ShowcaseCard where
  showcaseTag : String
  display : String
deriving DecidableEq, Repr

/-- A `[data-showcase-kpi]` (or `[data-lab-kpi]`) node: its `data-kpi-key`
attribute and the texts of its `.metric-value` / `.metric-change`
children. -/
structure KpiNode where
  kpiKey : String
  valueText : String
  changeText : String
deriving DecidableEq, Repr

/-- DOM state a `BackendShowcase` instance manipulates.  `summary` is
`none` when the `[data-showcase-summary]` element is absent. -/
structure ShowcaseState where
  currentFilter : String
  buttons : List FilterButton
  cards : List ShowcaseCard
  kpiNodes : List KpiNode
  summary : Option String
deriving DecidableEq, Repr

/-- Model of `(card.dataset.showcaseTag || '').split(',').map(tag =>
tag.trim())`. -/
def cardTags (raw : String) : List String := (splitComma raw).map trimStr

/-- A card is displayed when its `style.display` is not `'none'`. -/
def ShowcaseCard.visible (c : ShowcaseCard) : Bool := c.display != "none"

/-- Model of `updateKpis` (shared by `BackendShowcase` and `PlatformLab`):
nodes with an empty or unknown `data-kpi-key` are skipped, others receive
the record of the active filter.  The transient `pulse` class is an
animation detail and is not modelled. -/
def updateKpiNodes (values : List (String × MetricRecord)) (nodes : List KpiNode) :
    List KpiNode :=
  nodes.map fun n =>
    if n.kpiKey = "" then n
    else
      match List.lookup n.kpiKey values with
      | none => n
      | some r => { n with valueText := r.value, changeText := r.change }

/-- The visibility predicate of `BackendShowcase.applyFilter`: show when
the special key `all` is active or the trimmed tag list contains the
active key. -/
def showcaseShouldShow (filter : String) (c : ShowcaseCard) : Bool :=
  filter == "all" || (cardTags c.showcaseTag).contains filter

/-- Model of `BackendShowcase.applyFilter` (src/script.js).  A falsy
(empty) or unknown filter returns silently: no log line is produced and no
state is touched.  An accepted filter updates the buttons, the cards, the
summary (falling back to the `all` text) and the KPI nodes. -/
def BackendShowcase.applyFilter (st : ShowcaseState) (filter : String) :
    ShowcaseState × List LogLine :=
  if filter = "" then (st, [])
  else
    match List.lookup filter showcaseKpiValues with
    | none => (st, [])
    | some values =>
        ({ currentFilter := filter
           buttons := st.buttons.map fun b =>
             { b with
               active := b.showcaseFilter == filter
               ariaPressed := if b.showcaseFilter == filter then "true" else "false" }
           cards := st.cards.map fun c =>
             { c with display := if showcaseShouldShow filter c then "" else "none" }
           kpiNodes := updateKpiNodes values st.kpiNodes
           summary := st.summary.map fun _ =>
             (List.lookup filter showcaseSummaryText).getD
               ((List.lookup "all" showcaseSummaryText).getD "") }, [])

/-- A `[data-mask-value]` node: its current text, its masked string
(`data-mask-value`) and its raw string (`data-mask-raw`). -/
structure MaskNode where
  text : String
  maskValue : String
  maskRaw : String
deriving DecidableEq, Repr

/-- One node's update in `toggleMaskedValues`: showing the masked string
switches to the raw string, anything else switches to the masked string. -/
def toggleMaskNode (n : MaskNode) : MaskNode :=
  { n with text := if n.text == n.maskValue then n.maskRaw else n.maskValue }

/-- Model of `BackendShowcase.toggleMaskedValues`: the toggle is applied
uniformly to every masked node. -/
def BackendShowcase.toggleMaskedValues (ns : List MaskNode) : List MaskNode :=
  ns.map toggleMaskNode

/-- A `[data-lab-filter]` button. -/
structure LabButton where
  labFilter : String
  active : Bool
  ariaPressed : String
deriving DecidableEq, Repr

/-- A `[data-lab-tag]` card. -/
structure LabCard where
  labTag : String
  display : String
deriving DecidableEq, Repr

/-- A lab card is displayed when its `style.display` is not `'none'`. -/
def LabCard.visible (c : LabCard) : Bool := c.display != "none"

/-- One entry of the lab's `summaries` fixture: a summary sentence and a
list of deliverable labels. -/
structure LabInfo where
  summary : String
  deliverables : List String
deriving DecidableEq, Repr

/-- DOM plus fixture state a `PlatformLab` instance manipulates.  The
`kpiValues` and `summaryText` maps come from the platform-lab fixture and
are part of the state because the fixture file is external data. -/
structure LabState where
  currentFilter : String
  kpiValues : List (String × List (String × MetricRecord))
  summaryText : List (String × LabInfo)
  buttons : List LabButton
  cards : List LabCard
  kpiNodes : List KpiNode
  summaryNode : Option String
  deliverablesNode : Option String
deriving DecidableEq, Repr

/-- The visibility predicate of `PlatformLab.applyFilter`: show exactly
when the trimmed tag list contains the active key — there is no special
case for `all` here, unlike `BackendShowcase`. -/
def labShouldShow (filter : String) (c : LabCard) : Bool :=
  (cardTags c.labTag).contains filter

/-- Model of `PlatformLab.updateSummary`. -/
def labUpdateSummary (st : LabState) : LabState :=
  match List.lookup st.currentFilter st.summaryText with
  | none => st
  | some info =>
      { st with
        summaryNode := st.summaryNode.map fun _ => info.summary
        deliverablesNode := st.deliverablesNode.map fun _ =>
          joinEmpty (info.deliverables.map fun item => "<span>" ++ item ++ "</span>") }

/-- Model of `PlatformLab.updateKpis`. -/
def labUpdateKpis (st : LabState) : LabState :=
  match List.lookup st.currentFilter st.kpiValues with
  | none => st
  | some values => { st with kpiNodes := updateKpiNodes values st.kpiNodes }

/-- Model of `PlatformLab.applyFilter` (src/assets/script.js and the same
method in src/unnamed/part_001): a falsy or unknown filter returns
silently; an accepted filter updates buttons, cards (visibility by
`labShouldShow`), then the summary and the KPI nodes. -/
def PlatformLab.applyFilter (st : LabState) (filter : String) : LabState :=
  if filter = "" then st
  else
    match List.lookup filter st.kpiValues with
    | none => st
    | some _ =>
        labUpdateKpis (labUpdateSummary
          { st with
            currentFilter := filter
            buttons := st.buttons.map fun b =>
              { b with
                active := b.labFilter == filter
                ariaPressed := if b.labFilter == filter then "true" else "false" }
            cards := st.cards.map fun c =>
              { c with display := if labShouldShow filter c then "" else "none" } })

-- ===========================================================================
-- Fixture loader (`loadJsonData` of src/assets/script.js; the private
-- cache of `LearningLibrary.loadData` in src/unnamed/part_001 follows the
-- same pattern).
-- ===========================================================================

/-- Parsed JSON values, enough to express JavaScript truthiness of the
parsed fixture. -/
inductive Json where
  | null
  | bool (b : Bool)
  | num (n : Int)
  | str (s : String)
  | arr (xs : List Json)
  | obj (fields : List (String × Json))

/-- JavaScript truthiness of a parsed JSON value: `null`, `false`, `0` and
the empty string are falsy, everything else (all arrays and objects) is
truthy. -/
def Json.truthy : Json → Bool
  | .null => false
  | .bool b => b
  | .num n => n != 0
  | .str s => s != ""
  | .arr _ => true
  | .obj _ => true

/-- A completed `fetch`: the HTTP status and the outcome of
`response.json()` (parsing can fail). -/
structure HttpResponse where
  status : Nat
  jsonBody : Except String Json

/-- Model of `response.ok`: status in the 200 to 299 range. -/
def HttpResponse.respOk (r : HttpResponse) : Bool :=
  decide (200 ≤ r.status) && decide (r.status < 300)

/-- The module level `jsonCache` object together with a log of the URLs
for which a network fetch was actually performed. -/
structure LoaderState where
  cache : List (String × Json)
  fetched : List String

/-- Model of `jsonCache[source] = data`: replace the entry or append it. -/
def setCache : List (String × Json) → String → Json → List (String × Json)
  | [], k, v => [(k, v)]
  | (k0, v0) :: rest, k, v =>
      if k0 = k then (k0, v) :: rest else (k0, v0) :: setCache rest k v

/-- The fetch branch of `loadJsonData`: record the network access, fail
when the response status is not successful, otherwise parse, cache and
return the data. -/
def loadFetch (net : String → HttpResponse) (st : LoaderState) (source : String) :
    Except String Json × LoaderState :=
  let st1 : LoaderState := { st with fetched := st.fetched ++ [source] }
  let r := net source
  if r.respOk then
    match r.jsonBody with
    | Except.error e => (Except.error e, st1)
    | Except.ok data =>
        (Except.ok data, { st1 with cache := setCache st1.cache source data })
  else
    (Except.error ("Data fetch failed: " ++ toString r.status), st1)

/-- Model of `loadJsonData` (src/assets/script.js).  The function `net`
stands for the network: it maps a URL to the response the server would
give.  A falsy (empty) source throws `Missing data source`.  The cache
check is `if (jsonCache[source])`, a truthiness test on the cached value:
a cached falsy value does not count as a hit and is fetched again. -/
def loadJsonData (net : String → HttpResponse) (st : LoaderState) (source : String) :
    Except String Json × LoaderState :=
  if source = "" then (Except.error "Missing data source", st)
  else
    match List.lookup source st.cache with
    | some v => if v.truthy then (Except.ok v, st) else loadFetch net st source
    | none => loadFetch net st source

-- ===========================================================================
-- Cosmetic rotators (`startLogStreamRotation` / `startAuditLogRotation`)
-- and the pipeline animation (`PlatformLab.runPipeline`).
-- ===========================================================================

/-- State of one rotation widget: the captured `offset` variable and the
`textContent` of the log element. -/
structure RotState where
  offset : Nat
  display : String
deriving DecidableEq, Repr

/-- State just before the first tick.  The src/assets/script.js rotators
render the unrotated buffer once before starting the interval
(`textContent = messages.join('\n')`); the src/script.js rotators leave
whatever the markup contained, and their ticks are identical. -/
def rotInit (buf : List String) : RotState := ⟨0, joinNl buf⟩

/-- One interval tick of the rotation: advance the offset modulo the
buffer length and overwrite the display with the rotated, newline joined
buffer (`messages.slice(offset).concat(messages.slice(0, offset))`). -/
def rotTick (buf : List String) (st : RotState) : RotState :=
  let offset := (st.offset + 1) % buf.length
  ⟨offset, joinNl (buf.drop offset ++ buf.take offset)⟩

/-- A `[data-pipeline-step]` element: its label (text content) and whether
it carries the `is-active` class. -/
structure PipeStep where
  label : String
  active : Bool
deriving DecidableEq, Repr

/-- State of the pipeline widget: the step elements, the status line, the
captured `index` variable, whether the interval stored in
`this.pipelineInterval` is still scheduled, and the total number of
scheduled intervals (to express that at most one is ever active).  The
model assumes the status element is present; when it or the steps are
missing `runPipeline` is a no-op in the script. -/
structure PipeState where
  steps : List PipeStep
  status : String
  index : Nat
  timerLive : Bool
  liveTimers : Nat
deriving DecidableEq, Repr

/-- Toggle the `is-active` class of the step at a position. -/
def setStepActive : List PipeStep → Nat → Bool → List PipeStep
  | [], _, _ => []
  | s :: rest, 0, b => { s with active := b } :: rest
  | s :: rest, i + 1, b => s :: setStepActive rest i b

/-- Model of `PlatformLab.runPipeline`: with no steps nothing happens;
otherwise the previous interval is cleared (`clearInterval` only has an
effect when that interval is still scheduled), every step is deactivated,
the status shows the start message, and a fresh interval is scheduled. -/
def PlatformLab.runPipeline (st : PipeState) : PipeState :=
  if st.steps.isEmpty then st
  else
    let cleared :=
      if st.timerLive then
        { st with timerLive := false, liveTimers := st.liveTimers - 1 }
      else st
    { cleared with
      steps := cleared.steps.map fun s => { s with active := false }
      status := "Pipeline started..."
      index := 0
      timerLive := true
      liveTimers := cleared.liveTimers + 1 }

/-- One tick of the pipeline interval.  A cancelled interval no longer
fires, so the state is unchanged when the timer is not live.  Otherwise:
the previously active step is deactivated; while steps remain, the next
step is activated, its label is copied into the status line and the index
advances; past the last step the completion message is shown and the
interval clears itself. -/
def pipeTick (st : PipeState) : PipeState :=
  if !st.timerLive then st
  else
    let steps1 :=
      if st.index > 0 then setStepActive st.steps (st.index - 1) false else st.steps
    if st.index < steps1.length then
      { st with
        steps := setStepActive steps1 st.index true
        status := "Running: " ++ (steps1.getD st.index ⟨"", false⟩).label
        index := st.index + 1 }
    else
      { st with
        steps := steps1
        status := "Pipeline complete. Release ready."
        timerLive := false
        liveTimers := st.liveTimers - 1 }

/-- States of the pipeline widget reachable from page load (no interval
scheduled yet) through clicks of the run button and interval ticks. -/
inductive PipeReach : PipeState → Prop where
  | init (steps : List PipeStep) (status : String) :
      PipeReach { steps := steps, status := status, index := 0,
                  timerLive := false, liveTimers := 0 }
  | run {s : PipeState} : PipeReach s → PipeReach (PlatformLab.runPipeline s)
  | tick {s : PipeState} : PipeReach s → PipeReach (pipeTick s)

/-- The timer accounting invariant of the pipeline widget: the number of
scheduled intervals is one when the current interval is live and zero
otherwise.  It holds at page load and is preserved by every run and
tick. -/
def PipeInv (s : PipeState) : Prop :=
  s.liveTimers = if s.timerLive then 1 else 0

/-- The active flags the step list carries after `t` ticks of a pipeline
run over `k` steps: all off for `t = 0`, exactly step `t - 1` on for
`1 ≤ t ≤ k`. -/
def pipeFlags (k t : Nat) : List Bool :=
  match t with
  | 0 => List.replicate k false
  | t + 1 => (List.replicate k false).set t true

-- ===========================================================================
-- Learning library (`LearningLibrary` of src/assets/script.js and
-- src/unnamed/part_001).
-- ===========================================================================

/-- One catalog entry of the learning library fixture. -/
structure LibraryItem where
  track : String
  level : String
  title : String
  summary : String
  focus : String
  duration : String
  tags : List String
deriving DecidableEq, Repr

/-- The lower cased searchable text of an item: title, summary, focus and
the space joined tags, separated by single spaces, as the template literal
in `applyFilters` builds it. -/
def libraryHaystack (item : LibraryItem) : String :=
  lowerStr (item.title ++ " " ++ item.summary ++ " " ++ item.focus ++ " " ++
    joinSp item.tags)

/-- The item predicate of `LearningLibrary.applyFilters`, over the already
normalized (trimmed, lower cased) query `q`. -/
def matchesFilters (track q level : String) (item : LibraryItem) : Bool :=
  if item.track != track then false
  else
    let matchesLevel := level == "all" || item.level == level
    let matchesQuery := q == "" || containsStr (libraryHaystack item) q
    matchesLevel && matchesQuery

/-- The query normalization of `applyFilters`:
`this.searchInput ? this.searchInput.value.trim().toLowerCase() : ''`. -/
def normalizeQuery : Option String → String
  | none => ""
  | some s => lowerStr (trimStr s)

/-- Model of `LearningLibrary.applyFilters`: `rawQuery` is the raw search
input value (`none` when the search input element is absent) and
`levelSel` the level select value (`none` when absent, which the script
reads as `all`). -/
def LearningLibrary.applyFilters (items : List LibraryItem) (track : String)
    (rawQuery : Option String) (levelSel : Option String) : List LibraryItem :=
  items.filter (matchesFilters track (normalizeQuery rawQuery) (levelSel.getD "all"))

/-- The displayed set as the spec sentence describes it: track equal to
the section's track, level equal to the filter or filter `all`, and the
searchable text containing the query case insensitively or the query
empty. -/
def specCatalogMatch (track q level : String) (item : LibraryItem) : Prop :=
  item.track = track ∧ (level = "all" ∨ item.level = level) ∧
    (q = "" ∨ containsStr (libraryHaystack item) q = true)

instance (track q level : String) (item : LibraryItem) :
    Decidable (specCatalogMatch track q level item) := by
  unfold specCatalogMatch; infer_instance

/-- Pagination state of one library section: the visible count window and
the current filtered result list. -/
structure LibPageState where
  visibleCount : Nat
  filteredItems : List LibraryItem
deriving DecidableEq, Repr

/-- What `LearningLibrary.render` puts into the DOM: the rendered cards,
whether the no-match message is shown, the count label (the script uses
`toLocaleString`, rendered here as plain decimal), and the state of the
load-more control. -/
structure LibRenderOut where
  visibleItems : List LibraryItem
  emptyMessageShown : Bool
  countLabel : String
  loadMoreDisabled : Bool
  loadMoreLabel : String
deriving DecidableEq, Repr

/-- Model of `LearningLibrary.render`. -/
def LearningLibrary.render (st : LibPageState) : LibRenderOut :=
  let visibleItems := st.filteredItems.take st.visibleCount
  let disabled := decide (st.filteredItems.length ≤ st.visibleCount)
  { visibleItems := visibleItems
    emptyMessageShown := visibleItems.isEmpty
    countLabel := toString st.filteredItems.length ++ " modules available"
    loadMoreDisabled := disabled
    loadMoreLabel := if disabled then "All modules loaded" else "Load more modules" }

/-- Model of the load-more click handler: `this.visibleCount += 12` then a
re-render. -/
def LearningLibrary.loadMore (st : LibPageState) : LibPageState :=
  { st with visibleCount := st.visibleCount + 12 }

-- ===========================================================================
-- Concrete states used by the witnesses and counterexamples.
-- ===========================================================================

/-- A small dashboard page: the two bound nodes of the `totalReports`
metric and two view buttons. -/
def dashExampleState : DashState :=
  { currentView := "monthly"
    nodes := [⟨"totalReports", "old"⟩, ⟨"totalReportsChange", "old"⟩]
    buttons := [⟨"monthly", false, "false"⟩, ⟨"quarterly", true, "true"⟩]
    lastAnnouncement := none }

/-- A dashboard section with one keyed metric node, bound to a dataset
whose single view key contains a hyphen. -/
def sectionExampleState : SectionState :=
  { currentView := "release-cadence"
    metricNodes := [⟨"totalReports", "x", "y"⟩]
    idNodes := []
    buttons := [⟨"release-cadence", false, "false"⟩]
    lastAnnouncement := none }

/-- The dataset of the example dashboard section. -/
def sectionExampleData : DashboardData := [("release-cadence", monthlyData)]

/-- A small showcase page: three cards and two filter buttons, currently
showing the `all` filter. -/
def showcaseExampleState : ShowcaseState :=
  { currentFilter := "all"
    buttons := [⟨"all", true, "true"⟩, ⟨"backend", false, "false"⟩]
    cards := [⟨"backend,security", ""⟩, ⟨"data", ""⟩, ⟨"backend", ""⟩]
    kpiNodes := [⟨"services", "12", "Versioned APIs, jobs, and reporting endpoints"⟩]
    summary := some "Multi-system view" }

/-- A platform lab whose fixture contains an `all` entry and one card not
tagged `all`: the input on which `PlatformLab.applyFilter` contradicts the
claimed `all` special case. -/
def labExampleState : LabState :=
  { currentFilter := "backend"
    kpiValues := [("all", []), ("backend", [])]
    summaryText := []
    buttons := []
    cards := [⟨"backend", ""⟩]
    kpiNodes := []
    summaryNode := none
    deliverablesNode := none }

/-- A network on which every URL responds 200 with body `false`: the
parsed fixture is falsy, so the cache truthiness test never hits. -/
def falsyNet : String → HttpResponse := fun _ => ⟨200, Except.ok (Json.bool false)⟩

/-- A network serving a truthy object on every URL. -/
def objNet : String → HttpResponse :=
  fun _ => ⟨200, Except.ok (Json.obj [("kpis", Json.obj [])])⟩

/-- The empty loader state at page load. -/
def emptyLoader : LoaderState := ⟨[], []⟩

/-- A three line rotation buffer. -/
def rotExampleBuf : List String := ["alpha", "beta", "gamma"]

/-- A two step pipeline with the timer not yet started. -/
def pipeExampleState : PipeState :=
  { steps := [⟨"Build", false⟩, ⟨"Test", false⟩]
    status := "Idle"
    index := 0
    timerLive := false
    liveTimers := 0 }

/-- Two masked nodes, one currently masked and one currently raw. -/
def maskExampleNodes : List MaskNode :=
  [⟨"***-**-1234", "***-**-1234", "123-45-1234"⟩,
   ⟨"550e8400", "********", "550e8400"⟩]

-- ===========================================================================
-- Helper lemmas.
-- ===========================================================================

theorem textOfId_setTextById_self (ns : List TextNode) (id t : String) :
    textOfId (setTextById ns id t) id = (textOfId ns id).map (fun _ => t) := by
  induction ns with
  | nil => rfl
  | cons n rest ih =>
    by_cases h : n.id = id
    · simp [setTextById, textOfId, h, List.find?]
    · simp only [setTextById, if_neg h]
      simp only [textOfId, List.find?] at ih ⊢
      have hb : (n.id == id) = false := by simpa using h
      simp [hb, ih]

theorem textOfId_setTextById_ne (ns : List TextNode) (id t id' : String)
    (h : id' ≠ id) :
    textOfId (setTextById ns id t) id' = textOfId ns id' := by
  have hii : (id == id') = false := by
    simp only [beq_eq_false_iff_ne, ne_eq]
    exact fun hc => h hc.symm
  induction ns with
  | nil => rfl
  | cons n rest ih =>
    by_cases hn : n.id = id
    · simp [setTextById, textOfId, hn, List.find?, hii]
    · simp only [setTextById, if_neg hn]
      by_cases hb : n.id = id'
      · simp [textOfId, List.find?, hb]
      · have hb' : (n.id == id') = false := by simpa using hb
        simp only [textOfId, List.find?, hb'] at ih ⊢
        exact ih

theorem updateMetrics_preserve (ds : ViewDataset) (ns : List TextNode)
    (id : String)
    (h : ∀ p ∈ ds, p.1 ≠ id ∧ p.1 ++ "Change" ≠ id) :
    textOfId (updateMetrics ns ds) id = textOfId ns id := by
  induction ds generalizing ns with
  | nil => rfl
  | cons kv rest ih =>
    have hkv := h kv (by simp)
    have hrest : ∀ p ∈ rest, p.1 ≠ id ∧ p.1 ++ "Change" ≠ id := by
      intro p hp; exact h p (by simp [hp])
    simp only [updateMetrics, List.foldl_cons] at *
    rw [ih _ hrest, textOfId_setTextById_ne _ _ _ _ (fun hc => hkv.2 hc.symm),
      textOfId_setTextById_ne _ _ _ _ (fun hc => hkv.1 hc.symm)]

theorem append_change_inj {a b : String} (h : a ++ "Change" = b ++ "Change") :
    a = b := by
  have hd := congrArg String.data h
  simp only [String.data_append] at hd
  exact String.ext (List.append_cancel_right hd)

theorem ne_append_change (k : String) : k ≠ k ++ "Change" := by
  intro h
  have hd : k.data = k.data ++ ("Change" : String).data := by
    have h2 := congrArg String.data h
    simp only [String.data_append] at h2
    exact h2
  have h4 : k.data ++ ("Change" : String).data = k.data ++ ([] : List Char) := by
    simpa using hd.symm
  exact absurd (List.append_cancel_left h4) (by decide)

theorem lookup_mem_dsKeys {ds : ViewDataset} {k : String} {v : MetricRecord}
    (h : List.lookup k ds = some v) : k ∈ dsKeys ds := by
  induction ds with
  | nil => simp [List.lookup] at h
  | cons kv rest ih =>
    obtain ⟨k0, v0⟩ := kv
    have hcons : dsKeys ((k0, v0) :: rest) = k0 :: dsKeys rest := rfl
    simp only [List.lookup] at h
    split at h
    · rename_i heq
      rw [hcons]
      exact List.mem_cons_self _ _ |> fun hm => (by simpa using heq : k = k0) ▸ hm
    · rw [hcons]
      exact List.mem_cons_of_mem _ (ih h)

theorem updateMetrics_lookup (ds : ViewDataset) (ns : List TextNode)
    (k : String) (v : MetricRecord)
    (hnd : (dsKeys ds).Nodup) (hcf : ChangeFree ds)
    (hlk : List.lookup k ds = some v) :
    textOfId (updateMetrics ns ds) k = (textOfId ns k).map (fun _ => v.value) ∧
    textOfId (updateMetrics ns ds) (k ++ "Change")
      = (textOfId ns (k ++ "Change")).map (fun _ => v.change) := by
  induction ds generalizing ns with
  | nil => simp [List.lookup] at hlk
  | cons kv rest ih =>
    obtain ⟨k0, v0⟩ := kv
    have hcons : dsKeys ((k0, v0) :: rest) = k0 :: dsKeys rest := rfl
    have hnd2 := List.nodup_cons.mp (hcons ▸ hnd)
    have hk0nin : k0 ∉ dsKeys rest := hnd2.1
    have hndrest : (dsKeys rest).Nodup := hnd2.2
    have hcfrest : ChangeFree rest := by
      intro k1 h1 k2 h2
      exact hcf k1 (by rw [hcons]; exact List.mem_cons_of_mem _ h1) k2
        (by rw [hcons]; exact List.mem_cons_of_mem _ h2)
    have hk0mem : k0 ∈ dsKeys ((k0, v0) :: rest) := by
      rw [hcons]; exact List.mem_cons_self _ _
    have hfold : updateMetrics ns ((k0, v0) :: rest)
        = updateMetrics
            (setTextById (setTextById ns k0 v0.value) (k0 ++ "Change") v0.change)
            rest := rfl
    simp only [List.lookup] at hlk
    split at hlk
    · rename_i heq
      have hk : k = k0 := by simpa using heq
      subst hk
      have hv : v0 = v := Option.some.inj hlk
      subst hv
      have hpres1 : ∀ p ∈ rest, p.1 ≠ k ∧ p.1 ++ "Change" ≠ k := by
        intro p hp
        have hpmem : p.1 ∈ dsKeys ((k, v0) :: rest) := by
          rw [hcons]; exact List.mem_cons_of_mem _ (List.mem_map_of_mem _ hp)
        refine ⟨fun hc => hk0nin (hc ▸ List.mem_map_of_mem _ hp), fun hc => ?_⟩
        exact hcf k hk0mem p.1 hpmem hc.symm
      have hpres2 : ∀ p ∈ rest, p.1 ≠ k ++ "Change" ∧ p.1 ++ "Change" ≠ k ++ "Change" := by
        intro p hp
        have hpmem : p.1 ∈ dsKeys ((k, v0) :: rest) := by
          rw [hcons]; exact List.mem_cons_of_mem _ (List.mem_map_of_mem _ hp)
        refine ⟨hcf p.1 hpmem k hk0mem, fun hc => ?_⟩
        exact hk0nin ((append_change_inj hc) ▸ List.mem_map_of_mem _ hp)
      rw [hfold]
      constructor
      · rw [updateMetrics_preserve rest _ _ hpres1,
          textOfId_setTextById_ne _ _ _ _ (ne_append_change k),
          textOfId_setTextById_self]
      · rw [updateMetrics_preserve rest _ _ hpres2,
          textOfId_setTextById_self,
          textOfId_setTextById_ne _ _ _ _ (fun hc => (ne_append_change k) hc.symm)]
    · rename_i heq
      have hk : k ≠ k0 := by simpa using heq
      have hkmem : k ∈ dsKeys ((k0, v0) :: rest) := by
        rw [hcons]; exact List.mem_cons_of_mem _ (lookup_mem_dsKeys hlk)
      have h1 : k ≠ k0 ++ "Change" := hcf k hkmem k0 hk0mem
      have h2 : k ++ "Change" ≠ k0 := fun hc => hcf k0 hk0mem k hkmem hc.symm
      have h3 : k ++ "Change" ≠ k0 ++ "Change" := fun hc => hk (append_change_inj hc)
      rw [hfold]
      obtain ⟨ih1, ih2⟩ :=
        ih (setTextById (setTextById ns k0 v0.value) (k0 ++ "Change") v0.change)
          hndrest hcfrest hlk
      constructor
      · rw [ih1, textOfId_setTextById_ne _ _ _ _ h1,
          textOfId_setTextById_ne _ _ _ _ hk]
      · rw [ih2, textOfId_setTextById_ne _ _ _ _ h3,
          textOfId_setTextById_ne _ _ _ _ h2]

theorem dashboard_view_cases {view : String} {ds : ViewDataset}
    (hv : List.lookup view dashboardData = some ds) :
    view = "monthly" ∧ ds = monthlyData ∨
    view = "quarterly" ∧ ds = quarterlyData ∨
    view = "yearly" ∧ ds = yearlyData := by
  simp only [dashboardData, List.lookup] at hv
  split at hv
  · rename_i h
    exact Or.inl ⟨by simpa using h, (Option.some.inj hv).symm⟩
  · split at hv
    · rename_i h
      exact Or.inr (Or.inl ⟨by simpa using h, (Option.some.inj hv).symm⟩)
    · split at hv
      · rename_i h
        exact Or.inr (Or.inr ⟨by simpa using h, (Option.some.inj hv).symm⟩)
      · exact absurd hv (by simp [List.lookup])

/-- C1: for every view key present in the dashboard dataset, `setView`
sets every bound value node's text to exactly the dataset's recorded value
string (after the fade delay; the settled state is modelled), sets every
bound caption node's text (`id = key + "Change"`) to exactly the recorded
change string, and — provided exactly one view button carries the key as
its `data-view`, as on the real page — marks exactly one button as
active/pressed, namely the one whose `data-view` equals the key. -/
theorem c1_setView_binds_dataset (view : String) (ds : ViewDataset)
    (hv : List.lookup view dashboardData = some ds)
    (st : DashState)
    (hbtn : st.buttons.countP (fun b => b.dataView == view) = 1) :
    (∀ k r, List.lookup k ds = some r →
      textOfId (DashboardManager.setView st view).1.nodes k
        = (textOfId st.nodes k).map (fun _ => r.value) ∧
      textOfId (DashboardManager.setView st view).1.nodes (k ++ "Change")
        = (textOfId st.nodes (k ++ "Change")).map (fun _ => r.change)) ∧
    (DashboardManager.setView st view).1.buttons.countP (·.active) = 1 ∧
    ∀ b ∈ (DashboardManager.setView st view).1.buttons,
      b.active = (b.dataView == view) ∧
      b.ariaPressed = (if b.dataView == view then "true" else "false") := by
  have hset : (DashboardManager.setView st view).1
      = { currentView := view
          nodes := updateMetrics st.nodes ds
          buttons := updateViewButtons st.buttons view
          lastAnnouncement := some (capFirst view ++ " view selected") } := by
    simp [DashboardManager.setView, hv]
  have hprops : (dsKeys ds).Nodup ∧ ChangeFree ds := by
    rcases dashboard_view_cases hv with ⟨_, rfl⟩ | ⟨_, rfl⟩ | ⟨_, rfl⟩ <;>
      exact ⟨by decide, by decide⟩
  refine ⟨?_, ?_, ?_⟩
  · intro k r hk
    rw [hset]
    exact updateMetrics_lookup ds st.nodes k r hprops.1 hprops.2 hk
  · rw [hset]
    show (updateViewButtons st.buttons view).countP (·.active) = 1
    unfold updateViewButtons
    rw [List.countP_map]
    exact hbtn
  · rw [hset]
    intro b hb
    simp only [updateViewButtons, List.mem_map] at hb
    obtain ⟨a, _, rfl⟩ := hb
    exact ⟨rfl, rfl⟩

/-- Witness for C1: selecting `monthly` on a concrete page sets the bound
`totalReports` nodes and activates exactly the `monthly` button. -/
theorem c1_witness :
    (List.lookup "monthly" dashboardData = some monthlyData ∧
      dashExampleState.buttons.countP (fun b => b.dataView == "monthly") = 1) ∧
    ((∀ k r, List.lookup k monthlyData = some r →
      textOfId (DashboardManager.setView dashExampleState "monthly").1.nodes k
        = (textOfId dashExampleState.nodes k).map (fun _ => r.value) ∧
      textOfId (DashboardManager.setView dashExampleState "monthly").1.nodes
          (k ++ "Change")
        = (textOfId dashExampleState.nodes (k ++ "Change")).map
            (fun _ => r.change)) ∧
    (DashboardManager.setView dashExampleState "monthly").1.buttons.countP
        (·.active) = 1 ∧
    ∀ b ∈ (DashboardManager.setView dashExampleState "monthly").1.buttons,
      b.active = (b.dataView == "monthly") ∧
      b.ariaPressed = (if b.dataView == "monthly" then "true" else "false")) ∧
    textOfId (DashboardManager.setView dashExampleState "monthly").1.nodes
        "totalReports" = some "2,847" ∧
    textOfId (DashboardManager.setView dashExampleState "monthly").1.nodes
        "totalReportsChange" = some "Up 12 percent from last period" :=
  ⟨⟨by decide, by decide⟩,
   c1_setView_binds_dataset "monthly" monthlyData (by decide) dashExampleState
     (by decide),
   by decide, by decide⟩

/-- C2 counterexample: the claim says an absent key is rejected with a
logged warning, but `BackendShowcase.applyFilter` rejects an absent key
silently — the log output is empty (`storage` is not a key of the inline
`kpiValues`). -/
theorem c2_counterexample :
    List.lookup "storage" showcaseKpiValues = none ∧
    BackendShowcase.applyFilter showcaseExampleState "storage"
      = (showcaseExampleState, []) :=
  ⟨by decide, by decide⟩

/-- C2 (amended): selecting a key with no dataset entry is a no-op that
throws nothing and leaves the whole widget state — current selection,
node texts and active indicators — unchanged; `DashboardManager.setView`
additionally logs an error level message, while
`BackendShowcase.applyFilter` returns silently without logging. -/
theorem c2_invalid_selection_noop :
    (∀ (st : DashState) (view : String),
      List.lookup view dashboardData = none →
      DashboardManager.setView st view
        = (st, [(LogLevel.error, "Invalid view: " ++ view)])) ∧
    (∀ (st : ShowcaseState) (filter : String),
      filter = "" ∨ List.lookup filter showcaseKpiValues = none →
      BackendShowcase.applyFilter st filter = (st, [])) := by
  constructor
  · intro st view hv
    simp [DashboardManager.setView, hv]
  · intro st filter hf
    rcases hf with rfl | hf
    · simp [BackendShowcase.applyFilter]
    · by_cases hb : filter = ""
      · simp [BackendShowcase.applyFilter, hb]
      · simp [BackendShowcase.applyFilter, hb, hf]

/-- Witness for C2: the absent view `weekly` and the absent filter
`frontend` leave the concrete states untouched. -/
theorem c2_witness :
    (List.lookup "weekly" dashboardData = none ∧
      List.lookup "frontend" showcaseKpiValues = none) ∧
    DashboardManager.setView dashExampleState "weekly"
      = (dashExampleState, [(LogLevel.error, "Invalid view: " ++ "weekly")]) ∧
    BackendShowcase.applyFilter showcaseExampleState "frontend"
      = (showcaseExampleState, []) :=
  ⟨⟨by decide, by decide⟩,
   c2_invalid_selection_noop.1 dashExampleState "weekly" (by decide),
   c2_invalid_selection_noop.2 showcaseExampleState "frontend"
     (Or.inr (by decide))⟩

/-- C9: for every view key accepted by `setView` the screen reader
announcement names the selection in human readable form — the key with
hyphen separators replaced by spaces and every word capitalized — followed
by `view selected`.  `DashboardSection` (src/assets/script.js) computes
exactly this form for every key of its dataset; `DashboardManager`
(src/script.js) capitalizes only the first character, which coincides with
the humanized form on each of its three single word, lower case keys. -/
theorem c9_announcement_humanized :
    (∀ (st : DashState) (view : String) (ds : ViewDataset),
      List.lookup view dashboardData = some ds →
      (DashboardManager.setView st view).1.lastAnnouncement
        = some (humanizeView view ++ " view selected")) ∧
    (∀ (dataSet : DashboardData) (st : SectionState) (view : String)
      (ds : ViewDataset), List.lookup view dataSet = some ds →
      (DashboardSection.setView dataSet st view).1.lastAnnouncement
        = some (humanizeView view ++ " view selected")) := by
  constructor
  · intro st view ds hv
    rcases dashboard_view_cases hv with ⟨rfl, _⟩ | ⟨rfl, _⟩ | ⟨rfl, _⟩ <;>
      simp [DashboardManager.setView, dashboardData, List.lookup] <;> decide
  · intro dataSet st view ds hv
    simp [DashboardSection.setView, hv]

/-- Witness for C9: `monthly` is announced as `Monthly view selected` by
the manager, and the hyphenated key `release-cadence` is announced as
`Release Cadence view selected` by the section. -/
theorem c9_witness :
    (List.lookup "monthly" dashboardData = some monthlyData ∧
      List.lookup "release-cadence" sectionExampleData = some monthlyData) ∧
    (DashboardManager.setView dashExampleState "monthly").1.lastAnnouncement
      = some (humanizeView "monthly" ++ " view selected") ∧
    (DashboardSection.setView sectionExampleData sectionExampleState
        "release-cadence").1.lastAnnouncement
      = some (humanizeView "release-cadence" ++ " view selected") ∧
    humanizeView "monthly" = "Monthly" ∧
    humanizeView "release-cadence" = "Release Cadence" :=
  ⟨⟨by decide, by decide⟩,
   c9_announcement_humanized.1 dashExampleState "monthly" monthlyData (by decide),
   c9_announcement_humanized.2 sectionExampleData sectionExampleState
     "release-cadence" monthlyData (by decide),
   by decide, by decide⟩

theorem toggleMaskNode_twice (n : MaskNode)
    (hmem : n.text = n.maskValue ∨ n.text = n.maskRaw)
    (hne : n.maskValue ≠ n.maskRaw) :
    toggleMaskNode (toggleMaskNode n) = n := by
  obtain ⟨t, mv, mr⟩ := n
  simp only at hmem hne
  rcases hmem with rfl | rfl
  · have hne' : mr ≠ t := fun hc => hne hc.symm
    simp [toggleMaskNode, hne']
  · simp [toggleMaskNode, hne]

/-- C10: on every masked node whose text is one of its two configured
strings and whose two strings differ, one invocation of the toggle swaps
the text to the other string, and two invocations of
`toggleMaskedValues` — which applies the toggle uniformly to every
node — restore the original state exactly. -/
theorem c10_mask_toggle_involution (ns : List MaskNode)
    (h : ∀ n ∈ ns,
      (n.text = n.maskValue ∨ n.text = n.maskRaw) ∧ n.maskValue ≠ n.maskRaw) :
    (∀ n ∈ ns, (toggleMaskNode n).text
      = (if n.text = n.maskValue then n.maskRaw else n.maskValue)) ∧
    BackendShowcase.toggleMaskedValues (BackendShowcase.toggleMaskedValues ns)
      = ns := by
  constructor
  · intro n _
    simp [toggleMaskNode]
  · unfold BackendShowcase.toggleMaskedValues
    rw [List.map_map]
    induction ns with
    | nil => rfl
    | cons n rest ih =>
      have hn := h n (by simp)
      have hrest : ∀ m ∈ rest,
          (m.text = m.maskValue ∨ m.text = m.maskRaw) ∧ m.maskValue ≠ m.maskRaw :=
        fun m hm => h m (by simp [hm])
      simp only [List.map_cons, Function.comp_apply]
      rw [toggleMaskNode_twice n hn.1 hn.2, ih hrest]

/-- Witness for C10 on two concrete masked nodes (one currently masked,
one currently showing the raw value). -/
theorem c10_witness :
    (∀ n ∈ maskExampleNodes,
      (n.text = n.maskValue ∨ n.text = n.maskRaw) ∧ n.maskValue ≠ n.maskRaw) ∧
    ((∀ n ∈ maskExampleNodes, (toggleMaskNode n).text
      = (if n.text = n.maskValue then n.maskRaw else n.maskValue)) ∧
    BackendShowcase.toggleMaskedValues
        (BackendShowcase.toggleMaskedValues maskExampleNodes)
      = maskExampleNodes) ∧
    (BackendShowcase.toggleMaskedValues maskExampleNodes).map MaskNode.text
      = ["123-45-1234", "********"] :=
  ⟨by decide, c10_mask_toggle_involution maskExampleNodes (by decide), by decide⟩

theorem rot_offset_after (buf : List String) (T : Nat) :
    ((rotTick buf)^[T] (rotInit buf)).offset = T % buf.length := by
  induction T with
  | zero => simp [rotInit]
  | succ t ih =>
    rw [Function.iterate_succ_apply']
    simp only [rotTick]
    rw [ih, Nat.mod_add_mod]

/-- C5: for every rotation buffer of length at least one and every tick
count `T`, the displayed text after `T` ticks is the buffer rotated left
by `T mod K`, newline joined — the previous text is overwritten wholesale
each tick — and after exactly `K` ticks the display shows the buffer in
its original order again. -/
theorem c5_rotation_mod (buf : List String) (hne : buf ≠ []) :
    (∀ T : Nat, ((rotTick buf)^[T] (rotInit buf)).display
      = joinNl (buf.drop (T % buf.length) ++ buf.take (T % buf.length))) ∧
    ((rotTick buf)^[buf.length] (rotInit buf)).display = joinNl buf := by
  have hdisp : ∀ T : Nat, ((rotTick buf)^[T] (rotInit buf)).display
      = joinNl (buf.drop (T % buf.length) ++ buf.take (T % buf.length)) := by
    intro T
    cases T with
    | zero => simp [rotInit]
    | succ t =>
      rw [Function.iterate_succ_apply']
      simp only [rotTick]
      rw [rot_offset_after, Nat.mod_add_mod]
  refine ⟨hdisp, ?_⟩
  rw [hdisp buf.length, Nat.mod_self]
  simp

/-- Witness for C5 on a three line buffer: after five ticks the display is
rotated left by two, and after three ticks the original order returns. -/
theorem c5_witness :
    rotExampleBuf ≠ [] ∧
    ((∀ T : Nat, ((rotTick rotExampleBuf)^[T] (rotInit rotExampleBuf)).display
      = joinNl (rotExampleBuf.drop (T % rotExampleBuf.length)
          ++ rotExampleBuf.take (T % rotExampleBuf.length))) ∧
    ((rotTick rotExampleBuf)^[rotExampleBuf.length]
        (rotInit rotExampleBuf)).display = joinNl rotExampleBuf) ∧
    ((rotTick rotExampleBuf)^[5] (rotInit rotExampleBuf)).display
      = "gamma\nalpha\nbeta" ∧
    ((rotTick rotExampleBuf)^[3] (rotInit rotExampleBuf)).display
      = "alpha\nbeta\ngamma" :=
  ⟨by decide, c5_rotation_mod rotExampleBuf (by decide), by decide, by decide⟩

/-- C7: activating load-more increases the visible-count window by the
fixed increment 12; the rendered visible list before the click is a prefix
of (hence contained in) the one after, so no previously shown item is
removed; and the load-more control is disabled and relabeled exactly when
the visible count reaches or exceeds the number of matches. -/
theorem c7_load_more_monotonic (st : LibPageState) :
    (LearningLibrary.loadMore st).visibleCount = st.visibleCount + 12 ∧
    (LearningLibrary.render st).visibleItems
      <+: (LearningLibrary.render (LearningLibrary.loadMore st)).visibleItems ∧
    (∀ x ∈ (LearningLibrary.render st).visibleItems,
      x ∈ (LearningLibrary.render (LearningLibrary.loadMore st)).visibleItems) ∧
    (LearningLibrary.render st).loadMoreDisabled
      = decide (st.filteredItems.length ≤ st.visibleCount) ∧
    (LearningLibrary.render st).loadMoreLabel
      = (if st.filteredItems.length ≤ st.visibleCount then "All modules loaded"
         else "Load more modules") := by
  have hpre : (LearningLibrary.render st).visibleItems
      <+: (LearningLibrary.render (LearningLibrary.loadMore st)).visibleItems := by
    show st.filteredItems.take st.visibleCount
      <+: st.filteredItems.take (st.visibleCount + 12)
    have h1 : st.filteredItems.take st.visibleCount
        = (st.filteredItems.take (st.visibleCount + 12)).take st.visibleCount := by
      rw [List.take_take, Nat.min_eq_left (Nat.le_add_right _ _)]
    rw [h1]
    exact List.take_prefix _ _
  refine ⟨rfl, hpre, fun x hx => hpre.subset hx, rfl, ?_⟩
  by_cases h : st.filteredItems.length ≤ st.visibleCount <;>
    simp [LearningLibrary.render, h]

theorem matchesFilters_iff_spec (track q level : String) (item : LibraryItem) :
    matchesFilters track q level item = true ↔
      specCatalogMatch track q level item := by
  unfold matchesFilters specCatalogMatch
  by_cases ht : item.track = track
  · simp [ht, Bool.and_eq_true, Bool.or_eq_true]
  · simp [ht]

/-- C6: for every item list, raw query and level selection, the result of
`applyFilters` is exactly the list of items whose track equals the
section's track, whose level equals the level filter or the level filter
is `all`, and whose searchable text contains the normalized (trimmed,
lower cased) query or that query is empty. -/
theorem c6_catalog_filter_exact (items : List LibraryItem) (track : String)
    (rawQuery : Option String) (levelSel : Option String) :
    LearningLibrary.applyFilters items track rawQuery levelSel
      = items.filter (fun item =>
          decide (specCatalogMatch track (normalizeQuery rawQuery)
            (levelSel.getD "all") item)) := by
  unfold LearningLibrary.applyFilters
  apply List.filter_congr
  intro item _
  by_cases hp : specCatalogMatch track (normalizeQuery rawQuery)
      (levelSel.getD "all") item
  · rw [decide_eq_true hp]
    exact (matchesFilters_iff_spec _ _ _ _).mpr hp
  · rw [decide_eq_false hp]
    rcases Bool.eq_false_or_eq_true
        (matchesFilters track (normalizeQuery rawQuery) (levelSel.getD "all") item)
      with hb | hb
    · exact absurd ((matchesFilters_iff_spec _ _ _ _).mp hb) hp
    · exact hb

theorem lookup_setCache_self (m : List (String × Json)) (k : String) (v : Json) :
    List.lookup k (setCache m k v) = some v := by
  induction m with
  | nil => simp [setCache, List.lookup]
  | cons kv rest ih =>
    obtain ⟨k0, v0⟩ := kv
    by_cases h : k0 = k
    · simp [setCache, h, List.lookup]
    · have hb : (k == k0) = false := by
        simp only [beq_eq_false_iff_ne, ne_eq]
        exact fun hc => h hc.symm
      simp [setCache, h, List.lookup, hb, ih]

/-- C4 counterexample: on a network whose fixture parses to the falsy
value `false`, two sequential `loadJsonData` calls with the same URL both
perform a network fetch — the cache test `if (jsonCache[source])` is a
truthiness test, so the cached falsy value never counts as a hit — even
though both calls resolve to the same data.  The claim says network access
happens only once per URL per page load. -/
theorem c4_counterexample :
    (loadJsonData falsyNet emptyLoader "a.json").2.fetched = ["a.json"] ∧
    (loadJsonData falsyNet
        (loadJsonData falsyNet emptyLoader "a.json").2 "a.json").2.fetched
      = ["a.json", "a.json"] ∧
    (loadJsonData falsyNet emptyLoader "a.json").1
      = Except.ok (Json.bool false) ∧
    (loadJsonData falsyNet
        (loadJsonData falsyNet emptyLoader "a.json").2 "a.json").1
      = Except.ok (Json.bool false) :=
  ⟨rfl, rfl, rfl, rfl⟩

/-- C4 (amended): the loader returns the previously cached parsed content
when the URL was already fetched and the cached value is truthy (a falsy
parsed fixture is fetched again on every call); otherwise it performs a
network fetch, fails with a load error when the response status is not in
the 200 to 299 range, parses the body, caches the result keyed by the URL
and returns it.  In particular two sequential calls with the same URL
perform network access only once and resolve to the same data, provided
the parsed fixture is truthy. -/
theorem c4_loader_cache_amended :
    (∀ (net : String → HttpResponse) (st : LoaderState) (source : String)
      (d : Json), source ≠ "" →
      List.lookup source st.cache = some d → d.truthy = true →
      loadJsonData net st source = (Except.ok d, st)) ∧
    (∀ (net : String → HttpResponse) (st : LoaderState) (source : String)
      (d : Json), source ≠ "" →
      List.lookup source st.cache = none →
      (net source).respOk = true → (net source).jsonBody = Except.ok d →
      loadJsonData net st source
        = (Except.ok d,
           { cache := setCache st.cache source d
             fetched := st.fetched ++ [source] }) ∧
      (d.truthy = true →
        loadJsonData net
          { cache := setCache st.cache source d
            fetched := st.fetched ++ [source] } source
        = (Except.ok d,
           { cache := setCache st.cache source d
             fetched := st.fetched ++ [source] }))) ∧
    (∀ (net : String → HttpResponse) (st : LoaderState) (source : String),
      source ≠ "" →
      List.lookup source st.cache = none →
      (net source).respOk = false →
      loadJsonData net st source
        = (Except.error ("Data fetch failed: " ++ toString (net source).status),
           { st with fetched := st.fetched ++ [source] })) := by
  refine ⟨?_, ?_, ?_⟩
  · intro net st source d hs hlk htr
    simp [loadJsonData, hs, hlk, htr]
  · intro net st source d hs hlk hok hbody
    constructor
    · simp [loadJsonData, hs, hlk, loadFetch, hok, hbody]
    · intro htr
      simp [loadJsonData, hs, lookup_setCache_self, htr]
  · intro net st source hs hlk hok
    simp [loadJsonData, hs, hlk, loadFetch, hok]

/-- Witness for C4: on a network serving a truthy object, the first call
fetches and caches, the second call returns the cached data without a new
fetch. -/
theorem c4_witness :
    (("data.json" : String) ≠ "" ∧
      List.lookup "data.json" emptyLoader.cache = none ∧
      (objNet "data.json").respOk = true ∧
      (objNet "data.json").jsonBody = Except.ok (Json.obj [("kpis", Json.obj [])])) ∧
    (loadJsonData objNet emptyLoader "data.json"
      = (Except.ok (Json.obj [("kpis", Json.obj [])]),
         { cache := setCache emptyLoader.cache "data.json"
             (Json.obj [("kpis", Json.obj [])])
           fetched := emptyLoader.fetched ++ ["data.json"] }) ∧
    ((Json.obj [("kpis", Json.obj [])]).truthy = true →
      loadJsonData objNet
        { cache := setCache emptyLoader.cache "data.json"
            (Json.obj [("kpis", Json.obj [])])
          fetched := emptyLoader.fetched ++ ["data.json"] } "data.json"
      = (Except.ok (Json.obj [("kpis", Json.obj [])]),
         { cache := setCache emptyLoader.cache "data.json"
             (Json.obj [("kpis", Json.obj [])])
           fetched := emptyLoader.fetched ++ ["data.json"] }))) ∧
    (loadJsonData objNet
        (loadJsonData objNet emptyLoader "data.json").2 "data.json").2.fetched
      = ["data.json"] :=
  ⟨⟨by decide, rfl, rfl, rfl⟩,
   c4_loader_cache_amended.2.1 objNet emptyLoader "data.json"
     (Json.obj [("kpis", Json.obj [])]) (by decide) rfl rfl rfl,
   rfl⟩

theorem visible_display_ite (c : ShowcaseCard) (p : Bool) :
    ShowcaseCard.visible { c with display := if p then "" else "none" } = p := by
  cases p <;> simp [ShowcaseCard.visible]

theorem lab_visible_display_ite (c : LabCard) (p : Bool) :
    LabCard.visible { c with display := if p then "" else "none" } = p := by
  cases p <;> simp [LabCard.visible]

theorem countP_not_eq_sub {α : Type} (l : List α) (p : α → Bool) :
    l.countP (fun a => !p a) = l.length - l.countP p := by
  induction l with
  | nil => rfl
  | cons x xs ih =>
    have h1 : xs.countP p ≤ xs.length := List.countP_le_length p
    by_cases h : p x = true <;>
      simp [List.countP_cons, h, ih, List.length_cons] <;> omega

theorem labUpdateSummary_cards (st : LabState) :
    (labUpdateSummary st).cards = st.cards := by
  unfold labUpdateSummary
  split <;> rfl

theorem labUpdateKpis_cards (st : LabState) :
    (labUpdateKpis st).cards = st.cards := by
  unfold labUpdateKpis
  split <;> rfl

/-- C3 counterexample: the claim's visibility rule (displayed iff `all` is
active or the tag list contains the key) fails for `PlatformLab`: with a
lab dataset that has an `all` entry, applying the accepted filter `all` to
a card tagged only `backend` hides the card, although the claim's rule —
whose value on this input is computed in the second conjunct — demands it
be displayed. -/
theorem c3_counterexample :
    (List.lookup "all" labExampleState.kpiValues).isSome = true ∧
    (("all" == "all") || (cardTags "backend").contains "all") = true ∧
    (PlatformLab.applyFilter labExampleState "all").cards.map LabCard.visible
      = [false] :=
  ⟨by decide, by decide, by decide⟩

/-- C3 (amended): for `BackendShowcase.applyFilter` the claim holds as
stated — an accepted filter displays a card exactly when the special key
`all` is active or the card's trimmed tag list contains the key, a tag
matching N of the M cards leaves exactly N visible and M − N hidden, and
applying `all` afterwards reveals all M cards.  `PlatformLab.applyFilter`
has no special case for `all`: a card is displayed exactly when its tag
list contains the active key, even when that key is `all`. -/
theorem c3_card_filter_amended :
    (∀ (st : ShowcaseState) (filter : String), filter ≠ "" →
      (List.lookup filter showcaseKpiValues).isSome = true →
      (BackendShowcase.applyFilter st filter).1.cards
        = st.cards.map (fun c =>
            { c with display := if showcaseShouldShow filter c then "" else "none" }) ∧
      (BackendShowcase.applyFilter st filter).1.cards.map ShowcaseCard.visible
        = st.cards.map (showcaseShouldShow filter) ∧
      (BackendShowcase.applyFilter st filter).1.cards.countP ShowcaseCard.visible
        = st.cards.countP (showcaseShouldShow filter) ∧
      (BackendShowcase.applyFilter st filter).1.cards.countP
          (fun c => !ShowcaseCard.visible c)
        = st.cards.length - st.cards.countP (showcaseShouldShow filter) ∧
      (BackendShowcase.applyFilter (BackendShowcase.applyFilter st filter).1
          "all").1.cards.countP ShowcaseCard.visible
        = st.cards.length) ∧
    (∀ (st : LabState) (filter : String), filter ≠ "" →
      (List.lookup filter st.kpiValues).isSome = true →
      (PlatformLab.applyFilter st filter).cards
        = st.cards.map (fun c =>
            { c with display := if labShouldShow filter c then "" else "none" }) ∧
      (PlatformLab.applyFilter st filter).cards.map LabCard.visible
        = st.cards.map (labShouldShow filter)) := by
  have hcardsShow : ∀ (st : ShowcaseState) (filter : String), filter ≠ "" →
      (List.lookup filter showcaseKpiValues).isSome = true →
      (BackendShowcase.applyFilter st filter).1.cards
        = st.cards.map (fun c =>
            { c with display := if showcaseShouldShow filter c then "" else "none" }) := by
    intro st filter hf hsome
    obtain ⟨values, hv⟩ := Option.isSome_iff_exists.mp hsome
    simp [BackendShowcase.applyFilter, hf, hv]
  have hvisfun : ∀ filter : String,
      (fun c => ShowcaseCard.visible
        { c with display := if showcaseShouldShow filter c then "" else "none" })
      = showcaseShouldShow filter := by
    intro filter
    funext c
    exact visible_display_ite c _
  constructor
  · intro st filter hf hsome
    have hc := hcardsShow st filter hf hsome
    have hvis : (BackendShowcase.applyFilter st filter).1.cards.map
        ShowcaseCard.visible = st.cards.map (showcaseShouldShow filter) := by
      rw [hc, List.map_map]
      show st.cards.map (fun c => ShowcaseCard.visible
        { c with display := if showcaseShouldShow filter c then "" else "none" })
        = _
      rw [hvisfun]
    have hcount : (BackendShowcase.applyFilter st filter).1.cards.countP
        ShowcaseCard.visible = st.cards.countP (showcaseShouldShow filter) := by
      rw [hc, List.countP_map]
      show st.cards.countP (fun c => ShowcaseCard.visible
        { c with display := if showcaseShouldShow filter c then "" else "none" })
        = _
      rw [hvisfun]
    have hhide : (BackendShowcase.applyFilter st filter).1.cards.countP
        (fun c => !ShowcaseCard.visible c)
        = st.cards.length - st.cards.countP (showcaseShouldShow filter) := by
      rw [hc, List.countP_map]
      have hfun2 : ((fun c => !ShowcaseCard.visible c) ∘ (fun c : ShowcaseCard =>
          { c with display := if showcaseShouldShow filter c then "" else "none" }))
          = (fun c => !(showcaseShouldShow filter c)) := by
        funext c
        simp only [Function.comp_apply, visible_display_ite]
      rw [hfun2]
      exact countP_not_eq_sub st.cards (showcaseShouldShow filter)
    have hall : (BackendShowcase.applyFilter (BackendShowcase.applyFilter st
        filter).1 "all").1.cards.countP ShowcaseCard.visible
        = st.cards.length := by
      have hc2 := hcardsShow (BackendShowcase.applyFilter st filter).1 "all"
        (by decide) (by decide)
      rw [hc2, List.countP_map]
      have hfun3 : (ShowcaseCard.visible ∘ (fun c : ShowcaseCard =>
          { c with display := if showcaseShouldShow "all" c then "" else "none" }))
          = (fun _ => true) := by
        funext c
        simp only [Function.comp_apply, visible_display_ite]
        simp [showcaseShouldShow]
      rw [hfun3]
      have hlen : (BackendShowcase.applyFilter st filter).1.cards.length
          = st.cards.length := by
        rw [hc, List.length_map]
      rw [List.countP_true, hlen]
    exact ⟨hc, hvis, hcount, hhide, hall⟩
  · intro st filter hf hsome
    obtain ⟨values, hv⟩ := Option.isSome_iff_exists.mp hsome
    have hc : (PlatformLab.applyFilter st filter).cards
        = st.cards.map (fun c =>
            { c with display := if labShouldShow filter c then "" else "none" }) := by
      simp [PlatformLab.applyFilter, hf, hv, labUpdateKpis_cards,
        labUpdateSummary_cards]
    refine ⟨hc, ?_⟩
    rw [hc, List.map_map]
    have hfun : (LabCard.visible ∘ (fun c : LabCard =>
        { c with display := if labShouldShow filter c then "" else "none" }))
        = labShouldShow filter := by
      funext c
      simp only [Function.comp_apply, lab_visible_display_ite]
    rw [hfun]

/-- Witness for C3 on a concrete showcase page: the tag `security` matches
one of the three cards, so exactly one stays visible and two are hidden,
and re-selecting `all` reveals all three. -/
theorem c3_witness :
    (("security" : String) ≠ "" ∧
      (List.lookup "security" showcaseKpiValues).isSome = true ∧
      ("backend" : String) ≠ "" ∧
      (List.lookup "backend" labExampleState.kpiValues).isSome = true) ∧
    ((BackendShowcase.applyFilter showcaseExampleState "security").1.cards
        = showcaseExampleState.cards.map (fun c =>
            { c with display := if showcaseShouldShow "security" c then ""
                else "none" }) ∧
      (BackendShowcase.applyFilter showcaseExampleState "security").1.cards.map
          ShowcaseCard.visible
        = showcaseExampleState.cards.map (showcaseShouldShow "security") ∧
      (BackendShowcase.applyFilter showcaseExampleState "security").1.cards.countP
          ShowcaseCard.visible
        = showcaseExampleState.cards.countP (showcaseShouldShow "security") ∧
      (BackendShowcase.applyFilter showcaseExampleState "security").1.cards.countP
          (fun c => !ShowcaseCard.visible c)
        = showcaseExampleState.cards.length
            - showcaseExampleState.cards.countP (showcaseShouldShow "security") ∧
      (BackendShowcase.applyFilter
          (BackendShowcase.applyFilter showcaseExampleState "security").1
          "all").1.cards.countP ShowcaseCard.visible
        = showcaseExampleState.cards.length) ∧
    ((PlatformLab.applyFilter labExampleState "backend").cards
        = labExampleState.cards.map (fun c =>
            { c with display := if labShouldShow "backend" c then "" else "none" }) ∧
      (PlatformLab.applyFilter labExampleState "backend").cards.map LabCard.visible
        = labExampleState.cards.map (labShouldShow "backend")) ∧
    (BackendShowcase.applyFilter showcaseExampleState "security").1.cards.countP
        ShowcaseCard.visible = 1 ∧
    (BackendShowcase.applyFilter showcaseExampleState "security").1.cards.countP
        (fun c => !ShowcaseCard.visible c) = 2 :=
  ⟨⟨by decide, by decide, by decide, by decide⟩,
   c3_card_filter_amended.1 showcaseExampleState "security" (by decide) (by decide),
   c3_card_filter_amended.2 labExampleState "backend" (by decide) (by decide),
   by decide, by decide⟩

theorem setStepActive_label_map (l : List PipeStep) (i : Nat) (b : Bool) :
    (setStepActive l i b).map PipeStep.label = l.map PipeStep.label := by
  induction l generalizing i with
  | nil => rfl
  | cons s rest ih =>
    cases i with
    | zero => rfl
    | succ j => simp [setStepActive, ih]

theorem setStepActive_active_map (l : List PipeStep) (i : Nat) (b : Bool) :
    (setStepActive l i b).map PipeStep.active = (l.map PipeStep.active).set i b := by
  induction l generalizing i with
  | nil => rfl
  | cons s rest ih =>
    cases i with
    | zero => rfl
    | succ j => simp [setStepActive, List.set, ih]

theorem pipeSteps_length_of_label_map {l : List PipeStep} {L : List String}
    (h : l.map PipeStep.label = L) : l.length = L.length := by
  simpa using congrArg List.length h

theorem getD_label_of_label_map {l : List PipeStep} {L : List String}
    (h : l.map PipeStep.label = L) (i : Nat) :
    (l.getD i ⟨"", false⟩).label = L.getD i "" := by
  induction l generalizing L i with
  | nil => cases h; rfl
  | cons s rest ih =>
    cases h
    cases i with
    | zero => rfl
    | succ j => simpa [List.getD] using ih rfl j

theorem set_replicate_false (k i : Nat) :
    (List.replicate k false).set i false = List.replicate k false := by
  induction k generalizing i with
  | zero => rfl
  | succ n ih =>
    cases i with
    | zero => rfl
    | succ j => simp [List.replicate, List.set, ih]

theorem deactivate_label_map (l : List PipeStep) :
    (l.map (fun s => { s with active := false })).map PipeStep.label
      = l.map PipeStep.label := by
  rw [List.map_map]; rfl

theorem deactivate_active_map (l : List PipeStep) :
    (l.map (fun s => { s with active := false })).map PipeStep.active
      = List.replicate l.length false := by
  induction l with
  | nil => rfl
  | cons s rest ih => simp [List.replicate, ih]

theorem pipeTick_running (s : PipeState) (L : List String) (t n : Nat)
    (hl : s.steps.map PipeStep.label = L)
    (ha : s.steps.map PipeStep.active = pipeFlags L.length t)
    (hi : s.index = t) (htl : s.timerLive = true) (hn : s.liveTimers = n)
    (hlt : t < L.length) :
    (pipeTick s).steps.map PipeStep.label = L ∧
    (pipeTick s).steps.map PipeStep.active = pipeFlags L.length (t + 1) ∧
    (pipeTick s).index = t + 1 ∧
    (pipeTick s).timerLive = true ∧
    (pipeTick s).liveTimers = n ∧
    (pipeTick s).status = "Running: " ++ L.getD t "" := by
  have hsteps1lab : (if s.index > 0 then setStepActive s.steps (s.index - 1) false
      else s.steps).map PipeStep.label = L := by
    split
    · rw [setStepActive_label_map]; exact hl
    · exact hl
  have hsteps1act : (if s.index > 0 then setStepActive s.steps (s.index - 1) false
      else s.steps).map PipeStep.active = List.replicate L.length false := by
    rw [hi]
    cases t with
    | zero =>
      rw [if_neg (by omega)]
      simpa [pipeFlags] using ha
    | succ j =>
      rw [if_pos (by omega)]
      rw [setStepActive_active_map, hi] at *
      rw [ha]
      simp [pipeFlags, List.set_set, set_replicate_false]
  have hcond : s.index < (if s.index > 0 then setStepActive s.steps (s.index - 1)
      false else s.steps).length := by
    rw [pipeSteps_length_of_label_map hsteps1lab, hi]
    exact hlt
  have htick : pipeTick s
      = { s with
          steps := setStepActive (if s.index > 0 then
            setStepActive s.steps (s.index - 1) false else s.steps) s.index true
          status := "Running: " ++ ((if s.index > 0 then
            setStepActive s.steps (s.index - 1) false else s.steps).getD s.index
              ⟨"", false⟩).label
          index := s.index + 1 } := by
    unfold pipeTick
    rw [if_neg (by simp [htl])]
    rw [if_pos hcond]
  refine ⟨?_, ?_, ?_, ?_, ?_, ?_⟩ <;> rw [htick]
  · rw [setStepActive_label_map]
    exact hsteps1lab
  · show (setStepActive _ s.index true).map PipeStep.active = _
    rw [setStepActive_active_map, hsteps1act, hi]
    rfl
  · show s.index + 1 = t + 1
    rw [hi]
  · exact htl
  · exact hn
  · show "Running: " ++ _ = "Running: " ++ L.getD t ""
    rw [hi] at hsteps1lab ⊢
    rw [getD_label_of_label_map hsteps1lab t]

theorem pipeTick_complete (s : PipeState) (L : List String) (n : Nat)
    (hl : s.steps.map PipeStep.label = L)
    (ha : s.steps.map PipeStep.active = pipeFlags L.length L.length)
    (hi : s.index = L.length) (htl : s.timerLive = true) (hn : s.liveTimers = n)
    (hK : 0 < L.length) :
    (pipeTick s).steps.map PipeStep.active = List.replicate L.length false ∧
    (pipeTick s).status = "Pipeline complete. Release ready." ∧
    (pipeTick s).timerLive = false ∧
    (pipeTick s).liveTimers = n - 1 := by
  obtain ⟨m, hm⟩ : ∃ m, L.length = m + 1 := ⟨L.length - 1, by omega⟩
  have hsteps1act : (if s.index > 0 then setStepActive s.steps (s.index - 1) false
      else s.steps).map PipeStep.active = List.replicate L.length false := by
    rw [hi, hm]
    rw [if_pos (by omega)]
    rw [setStepActive_active_map]
    rw [hm] at ha
    rw [ha]
    simp [pipeFlags, List.set_set, set_replicate_false]
  have hsteps1lab : (if s.index > 0 then setStepActive s.steps (s.index - 1) false
      else s.steps).map PipeStep.label = L := by
    split
    · rw [setStepActive_label_map]; exact hl
    · exact hl
  have hcond : ¬ (s.index < (if s.index > 0 then setStepActive s.steps
      (s.index - 1) false else s.steps).length) := by
    rw [pipeSteps_length_of_label_map hsteps1lab, hi]
    omega
  have htick : pipeTick s
      = { s with
          steps := (if s.index > 0 then setStepActive s.steps (s.index - 1) false
            else s.steps)
          status := "Pipeline complete. Release ready."
          timerLive := false
          liveTimers := s.liveTimers - 1 } := by
    unfold pipeTick
    rw [if_neg (by simp [htl])]
    rw [if_neg hcond]
  refine ⟨?_, ?_, ?_, ?_⟩ <;> rw [htick]
  · exact hsteps1act
  · rw [hn]

theorem pipe_walk (s0 : PipeState) (L : List String) (n : Nat)
    (hl : s0.steps.map PipeStep.label = L)
    (ha : s0.steps.map PipeStep.active = List.replicate L.length false)
    (hi : s0.index = 0) (htl : s0.timerLive = true) (hn : s0.liveTimers = n) :
    ∀ t, t ≤ L.length →
      (pipeTick^[t] s0).steps.map PipeStep.label = L ∧
      (pipeTick^[t] s0).steps.map PipeStep.active = pipeFlags L.length t ∧
      (pipeTick^[t] s0).index = t ∧
      (pipeTick^[t] s0).timerLive = true ∧
      (pipeTick^[t] s0).liveTimers = n ∧
      (∀ j, t = j + 1 →
        (pipeTick^[t] s0).status = "Running: " ++ L.getD j "") := by
  intro t
  induction t with
  | zero =>
    intro _
    exact ⟨hl, ha, hi, htl, hn, fun j hj => absurd hj (by omega)⟩
  | succ t ih =>
    intro hle
    obtain ⟨ihl, iha, ihi, ihtl, ihn, _⟩ := ih (Nat.le_of_succ_le hle)
    have hlt : t < L.length := Nat.lt_of_succ_le hle
    have hstep := pipeTick_running (pipeTick^[t] s0) L t n ihl iha ihi ihtl ihn hlt
    rw [Function.iterate_succ_apply']
    refine ⟨hstep.1, hstep.2.1, hstep.2.2.1, hstep.2.2.2.1, hstep.2.2.2.2.1,
      fun j hj => ?_⟩
    have hjt : j = t := by omega
    subst hjt
    exact hstep.2.2.2.2.2

theorem pipeInv_run (s : PipeState) (h : PipeInv s) :
    PipeInv (PlatformLab.runPipeline s) := by
  unfold PipeInv at *
  unfold PlatformLab.runPipeline
  by_cases hs : s.steps.isEmpty = true
  · rw [if_pos hs]; exact h
  · rw [if_neg hs]
    by_cases ht : s.timerLive = true
    · simp only [ht, if_pos, if_true] at h ⊢
      simp [h]
    · simp only [ht] at h ⊢
      simp at ht
      simp [ht] at h
      simp [ht, h]

theorem pipeInv_tick (s : PipeState) (h : PipeInv s) : PipeInv (pipeTick s) := by
  by_cases ht : s.timerLive = true
  · by_cases hidx : s.index < (if s.index > 0 then
        setStepActive s.steps (s.index - 1) false else s.steps).length
    · have htick : pipeTick s
          = { s with
              steps := setStepActive (if s.index > 0 then
                setStepActive s.steps (s.index - 1) false else s.steps) s.index true
              status := "Running: " ++ ((if s.index > 0 then
                setStepActive s.steps (s.index - 1) false else s.steps).getD s.index
                  ⟨"", false⟩).label
              index := s.index + 1 } := by
        unfold pipeTick
        rw [if_neg (by simp [ht])]
        rw [if_pos hidx]
      unfold PipeInv at *
      rw [htick]
      simpa [ht] using h
    · have htick : pipeTick s
          = { s with
              steps := (if s.index > 0 then setStepActive s.steps (s.index - 1)
                false else s.steps)
              status := "Pipeline complete. Release ready."
              timerLive := false
              liveTimers := s.liveTimers - 1 } := by
        unfold pipeTick
        rw [if_neg (by simp [ht])]
        rw [if_neg hidx]
      unfold PipeInv at *
      rw [htick]
      simp only [ht, if_true] at h
      simp [h]
  · have htick : pipeTick s = s := by
      unfold pipeTick
      rw [if_pos (by simpa using ht)]
    rw [htick]
    exact h

theorem pipeReach_liveTimers_le_one (s : PipeState) (h : PipeReach s) :
    s.liveTimers ≤ 1 := by
  have hinv : PipeInv s := by
    induction h with
    | init steps status => rfl
    | run _ ih => exact pipeInv_run _ ih
    | tick _ ih => exact pipeInv_tick _ ih
  unfold PipeInv at hinv
  rw [hinv]
  by_cases ht : s.timerLive = true <;> simp [ht]

/-- C8: from a run start over a non empty step list, the pipeline walks
the steps sequentially — after `t + 1` ticks exactly step `t` carries the
`is-active` class (the tick deactivated the previous step and activated
this one) and the status line shows `Running:` followed by that step's
label; the tick after the last step deactivates everything, sets the
completion message and cancels the timer; re-triggering while a run is in
progress cancels the prior run's timer before scheduling the new one, so
the number of scheduled pipeline timers never exceeds one in any reachable
state. -/
theorem c8_pipeline_sequential (st : PipeState) (hne : st.steps ≠ []) :
    (∀ t, t < st.steps.length →
      (pipeTick^[t + 1] (PlatformLab.runPipeline st)).steps.map PipeStep.active
        = (List.replicate st.steps.length false).set t true ∧
      (pipeTick^[t + 1] (PlatformLab.runPipeline st)).status
        = "Running: " ++ (st.steps.map PipeStep.label).getD t "") ∧
    ((pipeTick^[st.steps.length + 1] (PlatformLab.runPipeline st)).status
        = "Pipeline complete. Release ready." ∧
      (pipeTick^[st.steps.length + 1] (PlatformLab.runPipeline st)).timerLive
        = false ∧
      (pipeTick^[st.steps.length + 1] (PlatformLab.runPipeline st)).steps.map
          PipeStep.active = List.replicate st.steps.length false) ∧
    (st.timerLive = true → PipeInv st →
      (PlatformLab.runPipeline st).liveTimers = 1 ∧
      (PlatformLab.runPipeline st).timerLive = true) ∧
    (∀ s : PipeState, PipeReach s → s.liveTimers ≤ 1) := by
  have hne' : ¬ st.steps.isEmpty = true := by
    simpa [List.isEmpty_iff] using hne
  have hrun : PlatformLab.runPipeline st
      = { steps := st.steps.map (fun s => { s with active := false })
          status := "Pipeline started..."
          index := 0
          timerLive := true
          liveTimers :=
            (if st.timerLive then st.liveTimers - 1 else st.liveTimers) + 1 } := by
    unfold PlatformLab.runPipeline
    rw [if_neg hne']
    by_cases ht : st.timerLive = true <;> simp [ht]
  have hLlen : (st.steps.map PipeStep.label).length = st.steps.length :=
    List.length_map _ _
  have hwalk := pipe_walk (PlatformLab.runPipeline st)
    (st.steps.map PipeStep.label)
    ((if st.timerLive then st.liveTimers - 1 else st.liveTimers) + 1)
    (by rw [hrun]; exact deactivate_label_map st.steps)
    (by rw [hrun, hLlen]; exact deactivate_active_map st.steps)
    (by rw [hrun]) (by rw [hrun]) (by rw [hrun])
  refine ⟨?_, ?_, ?_, pipeReach_liveTimers_le_one⟩
  · intro t ht
    have hw := hwalk (t + 1) (by omega)
    refine ⟨?_, hw.2.2.2.2.2 t rfl⟩
    have := hw.2.1
    rw [hLlen] at this
    exact this
  · have hw := hwalk st.steps.length (by omega)
    have hK : 0 < (st.steps.map PipeStep.label).length := by
      rw [hLlen]
      exact List.length_pos.mpr hne
    have hcomp := pipeTick_complete (pipeTick^[st.steps.length]
        (PlatformLab.runPipeline st)) (st.steps.map PipeStep.label)
      ((if st.timerLive then st.liveTimers - 1 else st.liveTimers) + 1)
      hw.1 (by rw [hLlen] at hw ⊢; exact hw.2.1) (by rw [hLlen] at hw ⊢; exact hw.2.2.1)
      hw.2.2.2.1 hw.2.2.2.2.1 hK
    rw [Function.iterate_succ_apply']
    refine ⟨hcomp.2.1, hcomp.2.2.1, ?_⟩
    have := hcomp.1
    rw [hLlen] at this
    exact this
  · intro ht hinv
    unfold PipeInv at hinv
    rw [ht, if_pos rfl] at hinv
    rw [hrun]
    simp [ht, hinv]

/-- Witness for C8 on a concrete two step pipeline: after one tick the
first step is active with its label in the status line, after three ticks
the run has completed and the timer is cancelled, and the double triggered
widget still has at most one scheduled timer. -/
theorem c8_witness :
    pipeExampleState.steps ≠ [] ∧
    ((pipeTick^[1] (PlatformLab.runPipeline pipeExampleState)).steps.map
        PipeStep.active
      = (List.replicate pipeExampleState.steps.length false).set 0 true ∧
     (pipeTick^[1] (PlatformLab.runPipeline pipeExampleState)).status
      = "Running: " ++ (pipeExampleState.steps.map PipeStep.label).getD 0 "") ∧
    ((pipeTick^[pipeExampleState.steps.length + 1]
        (PlatformLab.runPipeline pipeExampleState)).status
      = "Pipeline complete. Release ready." ∧
     (pipeTick^[pipeExampleState.steps.length + 1]
        (PlatformLab.runPipeline pipeExampleState)).timerLive = false ∧
     (pipeTick^[pipeExampleState.steps.length + 1]
        (PlatformLab.runPipeline pipeExampleState)).steps.map PipeStep.active
      = List.replicate pipeExampleState.steps.length false) ∧
    (PlatformLab.runPipeline (PlatformLab.runPipeline
        pipeExampleState)).liveTimers ≤ 1 ∧
    (pipeTick^[1] (PlatformLab.runPipeline pipeExampleState)).status
      = "Running: Build" :=
  ⟨by decide,
   (c8_pipeline_sequential pipeExampleState (by decide)).1 0 (by decide),
   (c8_pipeline_sequential pipeExampleState (by decide)).2.1,
   (c8_pipeline_sequential pipeExampleState (by decide)).2.2.2
     (PlatformLab.runPipeline (PlatformLab.runPipeline pipeExampleState))
     (PipeReach.run (PipeReach.run
       (PipeReach.init [⟨"Build", false⟩, ⟨"Test", false⟩] "Idle"))),
   by decide⟩
